import Mathlib

/-!
Shallow embedding of the Postgres ticket store
(`src/store/pg/ticket_store.go`, package `pg`) together with the pieces of
the `models` package and of `handlePqErr` that the store relies on.

Modelling conventions:
* The database is a concrete `Store` value holding the relational tables at
  the granularity the store's SQL actually observes; SQL statements become
  pure functions on `Store`.
* Driver failures are injected through explicit fault parameters
  (`Option PqErr`, or a list of them for per-statement faults in loops):
  `none` means the statement succeeds, `some e` means the driver returns
  error `e`.
* Go functions that may return an error become functions into an explicit
  result type; a Go runtime panic (nil-pointer dereference) is a distinct
  `panicked` outcome, not a returned error.
-/

namespace Pg

/-- A raw database-driver error (the `error` values produced by
`database/sql` / `lib/pq` before classification). -/
inductive PqErr where
  | noRows
  | uniqueViolation (m : String)
  | ioFailure (m : String)
deriving DecidableEq

/-- The error taxonomy of the core boundary (spec section 7): NotFound,
DuplicateEntry, StoreError, ValidationError. -/
inductive StoreErr where
  | notFound
  | duplicateEntry
  | storeError (m : String)
  | validationError (m : String)
deriving DecidableEq

/-- Any error value flowing through the store: a raw driver error, a JSON
decode error, or an already-classified store error. -/
inductive Err where
  | pq (e : PqErr)
  | jsonE (m : String)
  | store (s : StoreErr)
deriving DecidableEq

/-- Modelled from the spec: classification of a raw driver error into the
section-7 taxonomy (`handlePqErr` lives in the `pg` package but its file is
not part of the provided sources). `sql.ErrNoRows` becomes NotFound, a
unique-constraint violation becomes DuplicateEntry, anything else is a
generic StoreError. -/
def classify : PqErr → StoreErr
  | .noRows => .notFound
  | .uniqueViolation _ => .duplicateEntry
  | .ioFailure m => .storeError m

/-- Modelled from the spec: `handlePqErr` on a non-nil error; decode (JSON)
failures are also folded into StoreError ("StoreError (generic I/O/driver
failure, including decode failures)", spec section 7), and an
already-classified error passes through unchanged. -/
def handleErr : Err → Err
  | .pq e => .store (classify e)
  | .jsonE m => .store (.storeError m)
  | .store s => .store s

/-- Modelled from the spec: `handlePqErr` as used in the source — maps a nil
error to nil and classifies a non-nil one. -/
def handlePqErr : Option Err → Option Err :=
  Option.map handleErr

/-- Modelled from the spec: `models.User` (the `models` package sources are
not provided beyond `team.go`); only identity and username matter here. -/
structure User where
  id : Int
  username : String
deriving DecidableEq

/-- Modelled from the spec: `models.Status`. -/
structure Status where
  id : Int
  name : String
deriving DecidableEq

/-- Modelled from the spec: `models.TicketType`. -/
structure TicketType where
  id : Int
  name : String
deriving DecidableEq

/-- Modelled from the spec: `models.FieldOption` — the realized value of an
OPT-typed field: the selected string plus the catalog of allowed options. -/
structure FieldOption where
  selected : String
  options : List String
deriving DecidableEq

/-- Modelled from the spec: the polymorphic `FieldValue.Value`
(`interface\x7b\x7d` in Go) — exactly one of integer, float (carried as its
bit pattern; no arithmetic is ever performed on it), string, date, option,
or the null value the unknown-tag branch assigns. -/
inductive Value where
  | vint (n : Int)
  | vfloat (bits : Nat)
  | vstr (s : String)
  | vdate (t : Int)
  | vopt (o : FieldOption)
  | vnull
deriving DecidableEq

/-- Modelled from the spec: `models.FieldValue` — identity, field name,
declared data-type tag, and the polymorphic value. -/
structure FieldValue where
  id : Int
  name : String
  dataType : String
  value : Value
deriving DecidableEq

/-- Modelled from the spec: `models.Ticket` — the aggregate root with
scalar columns, the four denormalized references, and the field values.
(Comments are lazily loaded and not part of the aggregate.) Timestamps are
carried as abstract instants. -/
structure Ticket where
  id : Int
  key : String
  createdDate : Int
  updatedDate : Int
  summary : String
  description : String
  assignee : User
  reporter : User
  status : Status
  ttype : TicketType
  fields : List FieldValue
deriving DecidableEq

/-- Modelled from the spec: the project attributes the ticket store reads
(`models.Project` — id and project key). -/
structure ProjectRec where
  id : Int
  key : String
deriving DecidableEq

/-- A `row_to_json(...)` column as scanned into `json.RawMessage`: either a
well-formed serialization of an entity or malformed bytes on which
`json.Unmarshal` fails with the given message. -/
inductive RawJson (α : Type) where
  | val (a : α)
  | malformed (m : String)
deriving DecidableEq

/-- Model of `encoding/json.Unmarshal` applied to a `row_to_json` column. -/
def jsonUnmarshal {α : Type} : RawJson α → Except Err α
  | .val a => .ok a
  | .malformed m => .error (.jsonE m)

/-- Outcome of running a store operation that can return an error in Go: a
normal result, a returned error, or a runtime panic (which in Go aborts the
process and is never observable as a returned error). -/
inductive Out (α : Type) where
  | ok (a : α)
  | err (e : Err)
  | panicked
deriving DecidableEq

/-- Outcome of a listing (`GetAll` / `GetAllByProject`): the accumulated
tickets together with the final error value, or a panic. -/
inductive ListRes where
  | ret (tickets : List Ticket) (err : Option Err)
  | panicked
deriving DecidableEq

/-- One row of the `field_values` relation as the store's SQL observes it.
The read path (`populateFields`) joins `fields` and reads
`fv.id, f.name, f.data_type, fv.int_value, fv.flt_value, fv.str_value,
fv.opt_value, fv.dte_value, f.id`; the write paths (`Save`, `New`) write
`(name, data_type, value)` where `value` is a single JSON-serialized
column. The model carries the union of the columns either path touches on
one row (merging `f.name`/`f.data_type` with the written `name`/`data_type`,
which only gives the write path a better chance of being read back). -/
structure FVRow where
  id : Int
  ticketId : Int
  fieldId : Int
  name : String
  dataType : String
  intValue : Int
  fltValue : Nat
  strValue : String
  optValue : String
  dteValue : Int
  value : String
deriving DecidableEq

/-- One row of the joined ticket query (`Get` / `GetAll` /
`GetAllByProject`): the ticket's scalar columns, its `project_id` (used by
the project-scoped queries), and the four `row_to_json` reference
columns. -/
structure TicketRow where
  id : Int
  key : String
  projectId : Int
  createdDate : Int
  updatedDate : Int
  summary : String
  description : String
  ajson : RawJson User
  rjson : RawJson User
  sjson : RawJson Status
  tjson : RawJson TicketType
deriving DecidableEq

/-- The relational state the ticket store touches: `projects`, the ticket
rows (carried at the granularity of the joined read view), `field_values`,
`field_options` (pairs of field id and option string, in catalog order),
and `tickets_labels` (pairs of ticket id and label id). -/
structure Store where
  projects : List ProjectRec
  ticketRows : List TicketRow
  fieldValues : List FVRow
  fieldOptions : List (Int × String)
  ticketsLabels : List (Int × Int)
deriving DecidableEq

/-- Model of `encoding/json.Marshal` applied to `fv.Value` (as in `Save`).
Marshalling these shapes never fails in Go; the exact text is irrelevant to
every claim — only that it is some deterministic string. Rendered without
brace characters. -/
def jsonMarshalValue : Value → String
  | .vint n => toString n
  | .vfloat b => "float:" ++ toString b
  | .vstr s => "str:" ++ s
  | .vdate t => "date:" ++ toString t
  | .vopt o => "opt:" ++ o.selected ++ ":" ++ String.intercalate "," o.options
  | .vnull => "null"

/-- Model of `encoding/json.Marshal` applied to a whole `FieldValue`
struct (as in `New`, which marshals `fv`, not `fv.Value`). -/
def jsonMarshalFV (fv : FieldValue) : String :=
  "fv:" ++ toString fv.id ++ ":" ++ fv.name ++ ":" ++ fv.dataType ++ ":" ++
    jsonMarshalValue fv.value

/-- Translation of `getOpts` (ticket_store.go lines 19-39): `SELECT option FROM
field_options WHERE field_id = $1`, appending each option to
`fo.Options`. -/
def getOpts (fieldOptions : List (Int × String)) (fid : Int)
    (fo : FieldOption) : FieldOption :=
  { fo with options :=
      fo.options ++ (fieldOptions.filter (fun p => p.1 == fid)).map (·.2) }

/-- The per-row selection logic of `populateFields` (ticket_store.go lines
58-95) as it was evidently meant to run: scan the row's columns into a
fresh FieldValue, then select the value slot by the declared data-type tag
(`FLOAT`, `INT`, `STRING`, `DATE`, `OPT`, anything else giving a nil
value, with `OPT` additionally loading the option catalog via `getOpts`).
In the actual source this logic is unreachable: the loop scans into a nil
`*models.FieldValue` and panics before the switch (see
`populateFields`). -/
def fieldValueFromRow (fieldOptions : List (Int × String))
    (r : FVRow) : FieldValue :=
  let v : Value :=
    match r.dataType with
    | "FLOAT" => .vfloat r.fltValue
    | "INT" => .vint r.intValue
    | "STRING" => .vstr r.strValue
    | "DATE" => .vdate r.dteValue
    | "OPT" =>
        .vopt (getOpts fieldOptions r.fieldId
          { selected := r.optValue, options := [] })
    | _ => .vnull
  { id := r.id, name := r.name, dataType := r.dataType, value := v }

/-- Translation of `populateFields` (ticket_store.go lines 41-99). The query selects the
field-value rows of the ticket (join with `fields`); on a query error that
error is returned. The row loop, however, declares
`var fv *models.FieldValue` — a nil pointer — and its first statement is
`rows.Scan(fv.ID, fv.Name, fv.DataType, ...)`, which dereferences the nil
pointer: the first row triggers a runtime panic, so the function returns
normally (with an empty Fields slice) only when the ticket has no
field-value rows. The selection switch that follows the scan is dead code,
translated separately as `fieldValueFromRow`. -/
def populateFields (queryFault : Option PqErr) (db : Store)
    (tid : Int) : Out (List FieldValue) :=
  match queryFault with
  | some e => .err (.pq e)
  | none =>
    match db.fieldValues.filter (fun r => r.ticketId == tid) with
    | [] => .ok []
    | _ :: _ => .panicked

/-- The four sequential `json.Unmarshal` calls of `intoTicket`
(ticket_store.go lines 124-146): assignee, reporter, status, ticket type;
the first failure is returned as-is. -/
def refsDecoded (r : TicketRow) :
    Except Err (User × User × Status × TicketType) := do
  let a ← jsonUnmarshal r.ajson
  let rep ← jsonUnmarshal r.rjson
  let s ← jsonUnmarshal r.sjson
  let t ← jsonUnmarshal r.tjson
  .ok (a, rep, s, t)

/-- Translation of `intoTicket` (ticket_store.go lines 101-153). A scan error is returned
through `handlePqErr`. Otherwise a goroutine evaluates
`populateFields(db, t)` unconditionally (the call is evaluated before the
`select`), so a panic there aborts the process whatever the main path
does; the main path unmarshals the four reference columns, returning the
first JSON error raw, and finally joins on the field-value result,
classifying its error through `handlePqErr`. -/
def intoTicket (fvFault : Option PqErr) (db : Store)
    (scan : Except PqErr TicketRow) : Out Ticket :=
  match scan with
  | .error e => .err (handleErr (.pq e))
  | .ok r =>
    match populateFields fvFault db r.id, refsDecoded r with
    | .panicked, _ => .panicked
    | _, .error e => .err e
    | .err e, .ok _ => .err (handleErr e)
    | .ok fields, .ok (a, rep, s, tt) =>
        .ok { id := r.id, key := r.key, createdDate := r.createdDate,
              updatedDate := r.updatedDate, summary := r.summary,
              description := r.description, assignee := a, reporter := rep,
              status := s, ttype := tt, fields := fields }

/-- Translation of `Get` (ticket_store.go lines 156-174): one joined row matched by
`t.id = $1 OR t.key = $2` (`QueryRow` yields the first matching row, or
`sql.ErrNoRows` when none matches), fed through `intoTicket`, whose error
is classified once more by `handlePqErr`. -/
def Get (scanFault : Option PqErr) (fvFault : Option PqErr) (db : Store)
    (qid : Int) (qkey : String) : Out Ticket :=
  let scan : Except PqErr TicketRow :=
    match scanFault with
    | some e => .error e
    | none =>
      match db.ticketRows.find? (fun r => r.id == qid || r.key == qkey) with
      | some r => .ok r
      | none => .error .noRows
  match intoTicket fvFault db scan with
  | .ok t => .ok t
  | .err e => .err (handleErr e)
  | .panicked => .panicked

/-- The row loop shared verbatim by `GetAll` (lines 195-205) and
`GetAllByProject` (lines 233-242): decode each row with `intoTicket`; on
success append the ticket and continue; on a returned error stop and
return the tickets accumulated so far together with
`handlePqErr(err)`. -/
def getAllLoop (fvFault : Option PqErr) (db : Store) :
    List TicketRow → List Ticket → ListRes
  | [], acc => .ret acc none
  | r :: rs, acc =>
    match intoTicket fvFault db (.ok r) with
    | .ok t => getAllLoop fvFault db rs (acc ++ [t])
    | .err e => .ret acc (handlePqErr (some e))
    | .panicked => .panicked

/-- Translation of `GetAll` (ticket_store.go lines 177-208): query every joined ticket
row (a query error returns the nil slice and the classified error), then
run the shared row loop. -/
def GetAll (queryFault : Option PqErr) (fvFault : Option PqErr)
    (db : Store) : ListRes :=
  match queryFault with
  | some e => .ret [] (handlePqErr (some (.pq e)))
  | none => getAllLoop fvFault db db.ticketRows []

/-- The join-and-filter of `GetAllByProject`'s query (lines 215-228):
ticket rows whose project row (joined on `p.id = t.project_id`, a primary
key, hence at most one match) satisfies `p.id = $1 OR p.key = $2`. -/
def projectJoinRows (db : Store) (p : ProjectRec) : List TicketRow :=
  db.ticketRows.filter (fun t =>
    db.projects.any (fun pr =>
      pr.id == t.projectId && (pr.id == p.id || pr.key == p.key)))

/-- Translation of `GetAllByProject` (ticket_store.go lines 212-245): same as `GetAll`
but over the project-filtered join. -/
def GetAllByProject (queryFault : Option PqErr) (fvFault : Option PqErr)
    (db : Store) (p : ProjectRec) : ListRes :=
  match queryFault with
  | some e => .ret [] (handlePqErr (some (.pq e)))
  | none => getAllLoop fvFault db (projectJoinRows db p) []

/-- The `UPDATE tickets SET (summary, description, updated_date) = ... WHERE
id = $4` statement of `Save` (lines 249-252). -/
def applyTicketSave (now : Int) (t : Ticket)
    (rows : List TicketRow) : List TicketRow :=
  rows.map (fun r =>
    if r.id == t.id then
      { r with summary := t.summary, description := t.description,
               updatedDate := now }
    else r)

/-- The `UPDATE field_values SET (name, data_type, value) = ($1, $2, $3)
WHERE id = $4` statement of `Save`'s loop (lines 260-262): writes the
field's name, its data-type tag and the JSON serialization of `fv.Value`
into the single `value` column. The typed columns the read path consumes
(`int_value`, `flt_value`, `str_value`, `opt_value`, `dte_value`) are not
touched. -/
def applyFVUpdate (fv : FieldValue) (rows : List FVRow) : List FVRow :=
  rows.map (fun r =>
    if r.id == fv.id then
      { r with name := fv.name, dataType := fv.dataType,
               value := jsonMarshalValue fv.value }
    else r)

/-- Fault injection for `Save`: the ticket-row UPDATE and the per-field
UPDATE statements (`fvUpd` aligned positionally with `ticket.Fields`;
missing entries mean success). -/
structure SaveFaults where
  ticketUpd : Option PqErr
  fvUpd : List (Option PqErr)
deriving DecidableEq

/-- Translation of `Save`'s field loop (lines 254-266): `json.Marshal(fv.Value)` cannot
fail on these shapes, each field-value UPDATE is issued as its own
statement in collection order, and a statement error returns
`handlePqErr(err)` immediately, leaving the updates already applied in
place. -/
def saveFieldsLoop : List FieldValue → List (Option PqErr) →
    List FVRow → Option Err × List FVRow
  | [], _, rows => (none, rows)
  | fv :: rest, [], rows => saveFieldsLoop rest [] (applyFVUpdate fv rows)
  | fv :: rest, none :: fs, rows =>
      saveFieldsLoop rest fs (applyFVUpdate fv rows)
  | _ :: _, some e :: _, rows => (some (handleErr (.pq e)), rows)

/-- Translation of `Save` (ticket_store.go lines 248-269): the ticket-row UPDATE's error
is held in the outer `err` and only returned, classified, after the field
loop completes; a field-value UPDATE failure returns out of the loop
first. -/
def Save (f : SaveFaults) (now : Int) (db : Store)
    (t : Ticket) : Option Err × Store :=
  let outer : Option Err := f.ticketUpd.map Err.pq
  let db1 : Store :=
    match f.ticketUpd with
    | some _ => db
    | none => { db with ticketRows := applyTicketSave now t db.ticketRows }
  match saveFieldsLoop t.fields f.fvUpd db1.fieldValues with
  | (some e, rows) => (some e, { db1 with fieldValues := rows })
  | (none, rows) => (handlePqErr outer, { db1 with fieldValues := rows })

/-- Fault injection for `Remove`: `Begin`, the three DELETE statements,
`Rollback` and `Commit`. -/
structure RemoveFaults where
  beginTx : Option PqErr
  delFieldValues : Option PqErr
  delLabels : Option PqErr
  delTicket : Option PqErr
  rollback : Option PqErr
  commit : Option PqErr
deriving DecidableEq

/-- Translation of `Remove` (ticket_store.go lines 272-294). When `Begin` fails, `tx` is
nil and `tx.Rollback()` dereferences a nil pointer (panic). Each DELETE
runs inside the transaction; on a DELETE failure the code returns
`handlePqErr(tx.Rollback())` — the rollback restores the pre-transaction
state and its own error (nil on success) is what gets classified and
returned; the failed DELETE's error is discarded. On success the commit's
result is classified (a failed commit leaves the store unchanged). -/
def Remove (f : RemoveFaults) (db : Store) (tid : Int) :
    Out (Option Err × Store) :=
  match f.beginTx with
  | some _ => .panicked
  | none =>
    match f.delFieldValues with
    | some _ => .ok (handlePqErr (f.rollback.map Err.pq), db)
    | none =>
      let s1 : Store :=
        { db with fieldValues :=
            db.fieldValues.filter (fun r => r.ticketId != tid) }
      match f.delLabels with
      | some _ => .ok (handlePqErr (f.rollback.map Err.pq), db)
      | none =>
        let s2 : Store :=
          { s1 with ticketsLabels :=
              s1.ticketsLabels.filter (fun pr => pr.1 != tid) }
        match f.delTicket with
        | some _ => .ok (handlePqErr (f.rollback.map Err.pq), db)
        | none =>
          let s3 : Store :=
            { s2 with ticketRows := s2.ticketRows.filter (fun r => r.id != tid) }
          match f.commit with
          | some e => .ok (handlePqErr (some (.pq e)), db)
          | none => .ok (none, s3)

/-- Fault injection for `New`: the ticket INSERT and the per-field-value
INSERT statements (positional, like `SaveFaults.fvUpd`). -/
structure NewFaults where
  ticketInsert : Option PqErr
  fvInserts : List (Option PqErr)
deriving DecidableEq

/-- The ticket row `New`'s INSERT produces (lines 299-307): the INSERT
stores the scalar columns, `project_id := project.ID`, the reference ids
and the caller-supplied key, with the generated id scanned back; the model
keeps the store at read-view granularity, so the row carries the
referenced entities the read path would join and serialize. -/
def mkInsertedRow (genId : Int) (now : Int) (p : ProjectRec)
    (t : Ticket) : TicketRow :=
  { id := genId, key := t.key, projectId := p.id, createdDate := now,
    updatedDate := now, summary := t.summary, description := t.description,
    ajson := .val t.assignee, rjson := .val t.reporter,
    sjson := .val t.status, tjson := .val t.ttype }

/-- Translation of `New`'s field loop (lines 309-319): `json.Marshal(fv)` cannot fail on
these shapes; the INSERT's error is scanned into the loop-local `err`
declared by the marshal's `:=` (shadowing the outer `err`) and is never
checked, so a failed INSERT is silently skipped and the loop continues.
The INSERT statement itself names only `(name, data_type, value)` — it
never references the ticket id, and the generated row id is scanned into
the loop's copy of `fv` and discarded (modelled as id 0 / ticket id 0). -/
def newFVLoop : List FieldValue → List (Option PqErr) →
    List FVRow → List FVRow
  | [], _, rows => rows
  | _ :: rest, some _ :: fs, rows => newFVLoop rest fs rows
  | fv :: rest, none :: fs, rows =>
      newFVLoop rest fs (rows ++
        [{ id := 0, ticketId := 0, fieldId := 0, name := fv.name,
           dataType := fv.dataType, intValue := 0, fltValue := 0,
           strValue := "", optValue := "", dteValue := 0,
           value := jsonMarshalFV fv }])
  | fv :: rest, [], rows =>
      newFVLoop rest [] (rows ++
        [{ id := 0, ticketId := 0, fieldId := 0, name := fv.name,
           dataType := fv.dataType, intValue := 0, fltValue := 0,
           strValue := "", optValue := "", dteValue := 0,
           value := jsonMarshalFV fv }])

/-- Translation of `New` (ticket_store.go lines 297-322). The ticket INSERT's error is
assigned to the outer `err` and is not checked before the field loop runs;
on success the generated id is scanned into `ticket.ID`. The loop's
errors are shadowed and dropped (see `newFVLoop`). The function returns
`handlePqErr` of the outer `err` — i.e. of the ticket INSERT only. -/
def New (f : NewFaults) (genId : Int) (now : Int) (db : Store)
    (p : ProjectRec) (t : Ticket) : Option Err × Store × Ticket :=
  let outer : Option Err := f.ticketInsert.map Err.pq
  let step1 : Store × Ticket :=
    match f.ticketInsert with
    | some _ => (db, t)
    | none =>
        ({ db with ticketRows := db.ticketRows ++ [mkInsertedRow genId now p t] },
         { t with id := genId })
  let db2 : Store :=
    { step1.1 with fieldValues := newFVLoop t.fields f.fvInserts step1.1.fieldValues }
  (handlePqErr outer, db2, step1.2)

/-- The `SELECT COUNT(t.id) FROM tickets t JOIN projects p ON
p.id = t.project_id WHERE p.id = $1 OR p.key = $2` of `NextTicketKey`
(lines 396-398): the number of ticket rows whose project row (primary-key
join) matches the given project by id or by key. -/
def countTicketsFor (db : Store) (p : ProjectRec) : Nat :=
  (db.ticketRows.filter (fun t =>
    db.projects.any (fun pr =>
      pr.id == t.projectId && (pr.id == p.id || pr.key == p.key)))).length

/-- Translation of `NextTicketKey` (ticket_store.go lines 393-406): reads the count and
returns `p.Key + strconv.Itoa(count+1)`. The function's Go signature
returns only a string; on a count-query error the error is passed to
`handlePqErr` with the result discarded, and `p.Key + strconv.Itoa(1)` is
returned. The store is read, never written — the model threads the state
through to make that explicit. -/
def NextTicketKey (countFault : Option PqErr) (db : Store)
    (p : ProjectRec) : String × Store :=
  match countFault with
  | some _ => (p.key ++ toString (1 : Nat), db)
  | none => (p.key ++ toString (countTicketsFor db p + 1), db)

/-- The tickets successfully decoded from a list of rows, in row order
(used to state the partial prefix a failed listing still carries). -/
def decodeOks (fvFault : Option PqErr) (db : Store)
    (rows : List TicketRow) : List Ticket :=
  rows.filterMap (fun r =>
    match intoTicket fvFault db (.ok r) with
    | .ok t => some t
    | _ => none)

/-- A fresh `field_values` row for a given id / ticket / field, all typed
columns at their zero values (as a just-created row before any write). -/
def blankFVRow (i tid fid : Int) : FVRow :=
  { id := i, ticketId := tid, fieldId := fid, name := "", dataType := "",
    intValue := 0, fltValue := 0, strValue := "", optValue := "",
    dteValue := 0, value := "" }

/-- The write-path serialization of one FieldValue: the effect of `Save`'s
`UPDATE field_values SET (name, data_type, value) = ($1, $2, $3)` on the
row it addresses. -/
def encodeFVRow (fv : FieldValue) (r : FVRow) : FVRow :=
  { r with name := fv.name, dataType := fv.dataType,
           value := jsonMarshalValue fv.value }

/-! Concrete fixtures used by the counterexample evaluations and
witnesses. -/

def u1 : User := ⟨1, "alice"⟩

def st1 : Status := ⟨1, "Open"⟩

def tt1 : TicketType := ⟨1, "Bug"⟩

def proj1 : ProjectRec := ⟨1, "PROJ"⟩

/-- A persisted ticket row: id 7, key "PROJ-3", all reference columns
well-formed. -/
def row7 : TicketRow :=
  { id := 7, key := "PROJ-3", projectId := 1, createdDate := 0,
    updatedDate := 0, summary := "s", description := "d",
    ajson := .val u1, rjson := .val u1, sjson := .val st1,
    tjson := .val tt1 }

/-- An INT field-value row belonging to ticket 7. -/
def fvRow7 : FVRow :=
  { id := 1, ticketId := 7, fieldId := 1, name := "points",
    dataType := "INT", intValue := 5, fltValue := 0, strValue := "",
    optValue := "", dteValue := 0, value := "" }

/-- The aggregate `Get` reconstructs from `row7` when ticket 7 has no
field-value rows. -/
def agg7 : Ticket :=
  { id := 7, key := "PROJ-3", createdDate := 0, updatedDate := 0,
    summary := "s", description := "d", assignee := u1, reporter := u1,
    status := st1, ttype := tt1, fields := [] }

/-- Store for the `Remove` counterexample: ticket 7 with one dependent
field-value row and one label association. -/
def remDb : Store :=
  { projects := [proj1], ticketRows := [row7], fieldValues := [fvRow7],
    fieldOptions := [], ticketsLabels := [(7, 5)] }

/-- An INT-typed FieldValue carrying 5, for the round-trip check. -/
def c2Val : FieldValue :=
  { id := 11, name := "points", dataType := "INT", value := .vint 5 }

/-- Store whose only `field_values` row (for ticket 1) is the row produced
by encoding `c2Val` onto a fresh row. -/
def c2Db : Store :=
  { projects := [], ticketRows := [],
    fieldValues := [encodeFVRow c2Val (blankFVRow 11 1 1)],
    fieldOptions := [], ticketsLabels := [] }

/-- An entirely empty store. -/
def emptyDb : Store :=
  { projects := [], ticketRows := [], fieldValues := [], fieldOptions := [],
    ticketsLabels := [] }

/-- A ticket, not yet persisted, carrying one INT field value. -/
def c3Ticket : Ticket :=
  { id := 0, key := "PROJ-1", createdDate := 0, updatedDate := 0,
    summary := "s", description := "d", assignee := u1, reporter := u1,
    status := st1, ttype := tt1,
    fields := [{ id := 0, name := "points", dataType := "INT",
                 value := .vint 5 }] }

/-- A field-value row (for ticket 9) whose data-type tag "BOOL" is outside
the known set. -/
def c4Row : FVRow :=
  { id := 3, ticketId := 9, fieldId := 2, name := "flagged",
    dataType := "BOOL", intValue := 0, fltValue := 0, strValue := "",
    optValue := "", dteValue := 0, value := "" }

/-- Store holding only the unknown-tag row `c4Row`. -/
def c4Db : Store :=
  { projects := [], ticketRows := [], fieldValues := [c4Row],
    fieldOptions := [], ticketsLabels := [] }

/-- A persisted ticket (id 7) with two field values, for the `Save`
witness. -/
def c5Ticket : Ticket :=
  { agg7 with fields := [⟨21, "a", "INT", .vint 1⟩,
                         ⟨22, "b", "INT", .vint 2⟩] }

/-- Store backing the `Save` witness: ticket 7's row plus the two
field-value rows `Save` will address by id. -/
def c5Db : Store :=
  { projects := [proj1], ticketRows := [row7],
    fieldValues := [blankFVRow 21 7 1, blankFVRow 22 7 1],
    fieldOptions := [], ticketsLabels := [] }

/-- Faults for the `Save` witness: the ticket update and the first
field-value update succeed, the second field-value update fails. -/
def c5Faults : SaveFaults :=
  { ticketUpd := none, fvUpd := [none, some (.ioFailure "fv update failed")] }

/-- Store for the `Get` counterexample: ticket 7 is persisted together
with one dependent field-value row. -/
def c6Db : Store :=
  { projects := [proj1], ticketRows := [row7], fieldValues := [fvRow7],
    fieldOptions := [], ticketsLabels := [] }

/-- The same store with ticket 7 having no field-value rows. -/
def c6DbNoFv : Store := { c6Db with fieldValues := [] }

/-- Store with project "PROJ" and no tickets yet. -/
def c7Db0 : Store :=
  { projects := [proj1], ticketRows := [], fieldValues := [],
    fieldOptions := [], ticketsLabels := [] }

/-- A field-less ticket to create in project "PROJ". -/
def c7Ticket : Ticket := { agg7 with id := 0, key := "PROJ1", fields := [] }

/-- A ticket row whose assignee column is malformed JSON, so its decode
fails (with a returned error, not a panic). -/
def c9BadRow : TicketRow :=
  { row7 with id := 8, key := "PROJ-4", ajson := .malformed "oops" }

/-- Store for the listing witness: one decodable row followed by the
malformed one; no field-value rows. -/
def c9Db : Store :=
  { projects := [proj1], ticketRows := [row7, c9BadRow], fieldValues := [],
    fieldOptions := [], ticketsLabels := [] }

/-! Theorems. -/

/-- C1: against the claim, a failed DELETE inside `Remove` is *not*
reported to the caller. Concretely: for a store holding ticket 7 with one
field-value row and one label row, when the third DELETE (the ticket row)
fails and the rollback succeeds, `Remove` leaves the store unchanged (the
revert half of the claim holds) but returns `nil` — the value of
`handlePqErr(tx.Rollback())` — instead of a StoreError carrying the
failure. -/
theorem remove_failed_delete_reports_no_error :
    Remove { beginTx := none, delFieldValues := none, delLabels := none,
             delTicket := some (.ioFailure "disk full"), rollback := none,
             commit := none } remDb 7
      = .ok (none, remDb) := rfl

/-- C2: the field-value round-trip fails. Encoding the INT value 5 with
the write path (`Save`'s UPDATE) produces a row whose only written slots
are `name`, `data_type` and the JSON `value` column; the read path
(`populateFields`) panics on that row (nil `*models.FieldValue`), and even
the unreachable selection switch would read the untouched `int_value`
column and yield 0, not 5. -/
theorem fieldvalue_roundtrip_fails :
    populateFields none c2Db 1 = .panicked ∧
    fieldValueFromRow [] (encodeFVRow c2Val (blankFVRow 11 1 1)) ≠ c2Val :=
  ⟨rfl, by decide⟩

/-- C3: against the claim, a failed field-value INSERT inside `New` is
*not* reported. Concretely: creating a ticket with one field value whose
INSERT fails (the ticket INSERT succeeding with generated id 42) returns
`nil` — the classified *outer* error of the ticket INSERT — because the
loop assigns the INSERT error to a shadowing local `err` it never checks;
the ticket row stays (the non-rollback half of the claim holds) and no
field-value row is written. -/
theorem new_swallows_fieldvalue_insert_error :
    New { ticketInsert := none,
          fvInserts := [some (.ioFailure "insert failed")] } 42 0 emptyDb
        proj1 c3Ticket
      = (none,
         { emptyDb with ticketRows := [mkInsertedRow 42 0 proj1 c3Ticket] },
         { c3Ticket with id := 42 }) := rfl

/-- C4: against the claim, decoding a field-value row with the unknown tag
"BOOL" does not complete with a null Value: `populateFields` panics on the
row (the loop scans into a nil `*models.FieldValue` before ever reaching
the tag switch). The second conjunct records that the unreachable switch
logic would indeed have produced the claimed null Value. -/
theorem unknown_tag_decode_panics :
    populateFields none c4Db 9 = .panicked ∧
    fieldValueFromRow [] c4Row
      = { id := 3, name := "flagged", dataType := "BOOL", value := .vnull } :=
  ⟨rfl, rfl⟩

/-- Helper for C5: if the first `k` injected field-value-update faults are
absent and the `k`-th is `some e`, the save loop stops at the `k`-th
statement, returning the classified error and the table with exactly the
first `k` updates applied. -/
theorem saveFieldsLoop_fail (fvs : List FieldValue)
    (faults : List (Option PqErr)) (k : Nat) (e : PqErr) (rows : List FVRow)
    (hk : k < fvs.length)
    (hfail : faults.getD k none = some e)
    (hprior : ∀ j, j < k → faults.getD j none = none) :
    saveFieldsLoop fvs faults rows
      = (some (Err.store (classify e)),
         (fvs.take k).foldl (fun rs fv => applyFVUpdate fv rs) rows) := by
  induction fvs generalizing faults k rows with
  | nil => exact absurd hk (by simp)
  | cons fv rest ih =>
    cases faults with
    | nil => simp [List.getD] at hfail
    | cons f0 fs =>
      cases k with
      | zero =>
        have h0 : f0 = some e := by simpa using hfail
        subst h0
        rfl
      | succ m =>
        have h0 : f0 = none := by
          have := hprior 0 (Nat.succ_pos m)
          simpa using this
        subst h0
        have hm : m < rest.length := by
          have : m + 1 < rest.length + 1 := by simpa using hk
          omega
        have hfail' : fs.getD m none = some e := by simpa using hfail
        have hprior' : ∀ j, j < m → fs.getD j none = none := by
          intro j hj
          have := hprior (j + 1) (Nat.succ_lt_succ hj)
          simpa using this
        simpa [saveFieldsLoop] using ih fs m (applyFVUpdate fv rows) hm hfail' hprior'

/-- C5: each field-value update of `Save` is its own statement, issued in
collection order; if the `k`-th one fails (all earlier ones succeeding,
the ticket-row update succeeding), `Save` returns that statement's
classified error immediately, and the resulting store carries the
ticket-row update plus exactly the field-value updates before the `k`-th —
committed, with no rollback. -/
theorem save_fv_failure_immediate_prior_committed (f : SaveFaults)
    (now : Int) (db : Store) (t : Ticket) (k : Nat) (e : PqErr)
    (hticket : f.ticketUpd = none)
    (hk : k < t.fields.length)
    (hfail : f.fvUpd.getD k none = some e)
    (hprior : ∀ j, j < k → f.fvUpd.getD j none = none) :
    Save f now db t
      = (some (Err.store (classify e)),
         { db with ticketRows := applyTicketSave now t db.ticketRows,
                   fieldValues := (t.fields.take k).foldl
                     (fun rs fv => applyFVUpdate fv rs) db.fieldValues }) := by
  have hloop := saveFieldsLoop_fail t.fields f.fvUpd k e db.fieldValues hk
    hfail hprior
  simp [Save, hticket, hloop]

/-- Witness for C5 at a concrete input: ticket 7 with two field values,
the second update failing. -/
theorem save_fv_failure_witness :
    Save c5Faults 9 c5Db c5Ticket
      = (some (Err.store (classify (.ioFailure "fv update failed"))),
         { c5Db with
             ticketRows := applyTicketSave 9 c5Ticket c5Db.ticketRows,
             fieldValues := (c5Ticket.fields.take 1).foldl
               (fun rs fv => applyFVUpdate fv rs) c5Db.fieldValues }) :=
  save_fv_failure_immediate_prior_committed c5Faults 9 c5Db c5Ticket 1
    (.ioFailure "fv update failed") rfl (by decide) rfl (by decide)

/-- C6: against the claim's universality, a persisted ticket (id 7, key
"PROJ-3") that has a field-value row is resolved by *neither* addressing:
both `Get` by numeric id and `Get` by key select the same row and then
panic in `populateFields`. The last two conjuncts record that with no
field-value rows the two addressings do return identical aggregates. -/
theorem get_by_id_and_key_panics_with_fields :
    Get none none c6Db 7 "" = .panicked ∧
    Get none none c6Db 0 "PROJ-3" = .panicked ∧
    Get none none c6DbNoFv 7 "" = Get none none c6DbNoFv 0 "PROJ-3" ∧
    Get none none c6DbNoFv 7 "" = .ok agg7 :=
  ⟨rfl, rfl, rfl, rfl⟩

/-- C7: `NextTicketKey` returns the project key concatenated with the
join-count of the project's tickets (matched by project id OR project
key) plus one; in particular "PROJ1" for project "PROJ" with zero
tickets, and "PROJ2" after one ticket is persisted through `New`. -/
theorem nextTicketKey_counts_and_scenario :
    (∀ (db : Store) (p : ProjectRec),
        (NextTicketKey none db p).1
          = p.key ++ toString (countTicketsFor db p + 1)) ∧
    (NextTicketKey none c7Db0 proj1).1 = "PROJ1" ∧
    (NextTicketKey none
        (New { ticketInsert := none, fvInserts := [] } 1 0 c7Db0 proj1
          c7Ticket).2.1 proj1).1 = "PROJ2" :=
  ⟨fun _ _ => rfl, by decide, by decide⟩

/-- C8: `NextTicketKey` writes nothing back to the store, so two
consecutive calls on the same store state (with the same fault behaviour
and no intervening create) return the same string. -/
theorem nextTicketKey_deterministic (f : Option PqErr) (db : Store)
    (p : ProjectRec) :
    (NextTicketKey f db p).2 = db ∧
    (NextTicketKey f (NextTicketKey f db p).2 p).1
      = (NextTicketKey f db p).1 := by
  cases f <;> exact ⟨rfl, rfl⟩

/-- Helper for C9: the shared listing loop, run over a row list whose
first failing row returns error `e` after a prefix of decodable rows,
stops there and returns the accumulated tickets together with the
classified error. -/
theorem getAllLoop_aborts (fvFault : Option PqErr) (db : Store)
    (pre : List TicketRow) (bad : TicketRow) (post : List TicketRow)
    (e : Err) (acc : List Ticket)
    (hpre : ∀ r ∈ pre, ∃ t, intoTicket fvFault db (.ok r) = .ok t)
    (hbad : intoTicket fvFault db (.ok bad) = .err e) :
    getAllLoop fvFault db (pre ++ bad :: post) acc
      = .ret (acc ++ decodeOks fvFault db pre) (some (handleErr e)) := by
  induction pre generalizing acc with
  | nil => simp [getAllLoop, hbad, decodeOks, handlePqErr]
  | cons r pre' ih =>
    obtain ⟨t, ht⟩ := hpre r (List.mem_cons_self r pre')
    have hpre' : ∀ r' ∈ pre', ∃ u, intoTicket fvFault db (.ok r') = .ok u :=
      fun r' hr' => hpre r' (List.mem_cons_of_mem r hr')
    have step : getAllLoop fvFault db ((r :: pre') ++ bad :: post) acc
        = getAllLoop fvFault db (pre' ++ bad :: post) (acc ++ [t]) := by
      simp [getAllLoop, ht]
    rw [step, ih (acc ++ [t]) hpre']
    simp [decodeOks, ht]

/-- C9: for both `GetAll` and `GetAllByProject`, if the rows the query
yields consist of a decodable prefix followed by a row whose decode fails
with a returned error, the listing aborts at that row and returns the
classified error together with the tickets accumulated from the prefix
(no fully successful result). -/
theorem listings_abort_on_decode_failure (fvFault : Option PqErr)
    (db : Store) (p : ProjectRec) (pre : List TicketRow) (bad : TicketRow)
    (post : List TicketRow) (e : Err)
    (hpre : ∀ r ∈ pre, ∃ t, intoTicket fvFault db (.ok r) = .ok t)
    (hbad : intoTicket fvFault db (.ok bad) = .err e)
    (hall : db.ticketRows = pre ++ bad :: post)
    (hproj : projectJoinRows db p = pre ++ bad :: post) :
    GetAll none fvFault db
      = .ret (decodeOks fvFault db pre) (some (handleErr e)) ∧
    GetAllByProject none fvFault db p
      = .ret (decodeOks fvFault db pre) (some (handleErr e)) := by
  constructor
  · show getAllLoop fvFault db db.ticketRows [] = _
    rw [hall]
    simpa using getAllLoop_aborts fvFault db pre bad post e [] hpre hbad
  · show getAllLoop fvFault db (projectJoinRows db p) [] = _
    rw [hproj]
    simpa using getAllLoop_aborts fvFault db pre bad post e [] hpre hbad

/-- Witness for C9 at a concrete input: a store whose ticket rows are one
decodable row followed by a row with a malformed assignee column; both
listings return the one decoded ticket plus the classified error. -/
theorem listings_abort_witness :
    GetAll none none c9Db
      = .ret (decodeOks none c9Db [row7])
          (some (handleErr (.jsonE "oops"))) ∧
    GetAllByProject none none c9Db proj1
      = .ret (decodeOks none c9Db [row7])
          (some (handleErr (.jsonE "oops"))) :=
  listings_abort_on_decode_failure none c9Db proj1 [row7] c9BadRow []
    (.jsonE "oops")
    (by
      intro r hr
      rw [List.mem_singleton] at hr
      subst hr
      exact ⟨agg7, rfl⟩)
    rfl rfl (by decide)

/-- C10: when the count query inside `NextTicketKey` fails, no error is
propagated (the Go signature returns only a string): the result is the
project key concatenated with "1" — exactly what a project with zero
tickets yields — so the caller cannot distinguish a store failure from an
empty project. -/
theorem nextTicketKey_error_indistinguishable_from_empty (e : PqErr)
    (db : Store) (p : ProjectRec) :
    (NextTicketKey (some e) db p).1 = p.key ++ "1" ∧
    (NextTicketKey (some e) db p).1
      = (NextTicketKey none { db with ticketRows := [] } p).1 := by
  exact ⟨rfl, rfl⟩

end Pg
